import Mathlib

/-!
Shallow embedding of the structured-light projector (src/projector.py) and
proofs about the claims of the specification.  Python integers are modelled as
Nat/Int, Python floats appearing in geometric formulas as real numbers, the
accuracy argument as an exact rational, numpy rasters as lists of lists of
naturals, and raised exceptions as Except error values.
-/

/-- Runtime failures of the modelled Python code paths: the out-of-bounds numpy
row lookup in GenerateImage, and the TypeError raised by arithmetic on
test_distance = None in GetPlaneEquation. -/
inductive PyErr where
  | indexError : PyErr
  | typeError : PyErr
deriving DecidableEq

/-- Fuel-driven base-2 digit expansion, most significant digit first.
natBitsAux f n computes the binary digits of n provided n ≤ f; the fuel makes
the recursion structural so terms reduce inside the kernel. -/
def natBitsAux : ℕ → ℕ → List ℕ
  | 0, _ => []
  | fuel + 1, n => if n = 0 then [] else natBitsAux fuel (n / 2) ++ [n % 2]

/-- Binary digits of n, most significant first; empty for 0. -/
def natBits (n : ℕ) : List ℕ := natBitsAux n n

/-- Binary digit list of n as produced by Python format(n, 'b'): a single 0
digit for n = 0, no leading zeros otherwise. -/
def binStr (n : ℕ) : List ℕ := if n = 0 then [0] else natBits n

/-- Left pad with zeros to width w, as Python zero-padded formatting does;
never truncates a longer list. -/
def padZero (w : ℕ) (l : List ℕ) : List ℕ := List.replicate (w - l.length) 0 ++ l

/-- Python format(n, '0wb'): the binary digits of n zero-padded on the left to
width w. -/
def pyFormatBin (n w : ℕ) : List ℕ := padZero w (binStr n)

/-- Entry bins[j] built in Projector.StripeArray: format(j, '0wb')[2:] with
w = image_count + 2, i.e. the padded digits with the first two dropped. -/
def binsEntry (k j : ℕ) : List ℕ := (pyFormatBin j (k + 2)).drop 2

/-- Reference digit list: the w-digit binary representation of n, most
significant digit first (digit r is the coefficient of 2 ^ (w - 1 - r)). -/
def bitsLen (w n : ℕ) : List ℕ := (List.range w).map (fun r => n / 2 ^ (w - 1 - r) % 2)

/-- Projector.StripeArray from projector.py, with k standing for
self.image_count (so self.stripe_count = 2 ^ k): the matrix whose row r,
column j holds digit r of format(j, '0(k+2)b')[2:].  The matrix is stored
row-major; the numpy code fills it column by column with the same data. -/
def StripeArray (k : ℕ) : List (List ℕ) :=
  (List.range k).map (fun r => (List.range (2 ^ k)).map (fun j => (binsEntry k j).getD r 0))

/-- Fuel-driven base-2 integer logarithm: log2Aux f n counts how often n can be
halved before dropping below 2, correct for n ≤ f.  The fuel makes the
recursion structural so terms reduce inside the kernel. -/
def log2Aux : ℕ → ℕ → ℕ
  | 0, _ => 0
  | fuel + 1, n => if 2 ≤ n then log2Aux fuel (n / 2) + 1 else 0

/-- Base-2 integer logarithm, the value of floor(log2 n) for n ≥ 1; this is
proved equal to the floor of the real base-2 logarithm in
FindImageCount_floor_logb. -/
def log2F (n : ℕ) : ℕ := log2Aux n n

/-- Projector.FindImageCount: floor(floor(log2 width) * accuracy), with the
inner floor(log2 width) modelled by log2F and accuracy as an exact rational. -/
def FindImageCount (width : ℕ) (accuracy : ℚ) : ℤ :=
  ⌊(log2F width : ℚ) * accuracy⌋

/-- State of a Projector instance: the fields assigned by Projector.__init__. -/
structure Projector where
  position : ℝ × ℝ × ℝ
  angle : ℝ
  height : ℕ
  width : ℕ
  image_count : ℕ
  stripe_count : ℕ
  stripes_order : List (List ℕ)
  strip_width : ℕ
  last_stripe_width : ℕ
  image_index : ℕ
  pixel_in_meters : ℝ
  test_distance : Option ℝ

/-- Projector.__init__: width is component 0 and height component 1 of
projector_resolution, image_count = FindImageCount(accuracy) (non-negative on
the documented accuracy domain [0,1], hence the toNat), stripe_count
= 2 ** image_count, stripes_order = StripeArray(), strip_width
= width // stripe_count, last_stripe_width = strip_width + width % stripe_count,
cursor image_index = 0, the hard-coded default pixel size, and no calibration. -/
noncomputable def Projector.init (position : ℝ × ℝ × ℝ) (angle : ℝ)
    (projector_resolution : ℕ × ℕ) (accuracy : ℚ) : Projector :=
  { position := position
    angle := angle
    height := projector_resolution.2
    width := projector_resolution.1
    image_count := (FindImageCount projector_resolution.1 accuracy).toNat
    stripe_count := 2 ^ (FindImageCount projector_resolution.1 accuracy).toNat
    stripes_order := StripeArray (FindImageCount projector_resolution.1 accuracy).toNat
    strip_width := projector_resolution.1 / 2 ^ (FindImageCount projector_resolution.1 accuracy).toNat
    last_stripe_width :=
      projector_resolution.1 / 2 ^ (FindImageCount projector_resolution.1 accuracy).toNat
        + projector_resolution.1 % 2 ^ (FindImageCount projector_resolution.1 accuracy).toNat
    image_index := 0
    pixel_in_meters := 0.000264583333337192
    test_distance := none }

/-- Projector.SetTestProjection: records the test distance and derives
pixel_in_meters = width_argument / self.width.  The source performs no
validation of either argument. -/
noncomputable def SetTestProjection (p : Projector) (distance width : ℝ) : Projector :=
  { p with test_distance := some distance, pixel_in_meters := width / (p.width : ℝ) }

/-- Raster column c is lit when some stripe s whose row entry is 1 covers c:
the numpy assignment image[:, x0 : x0 + strip_width] = 1 with
x0 = strip_width * s, taken over all s with row[s] == 1. -/
def colLit (row : List ℕ) (sw c : ℕ) : Bool :=
  (List.range row.length).any (fun s =>
    decide (row.getD s 0 = 1) && decide (sw * s ≤ c) && decide (c < sw * s + sw))

/-- Projector.GenerateImage: looks up row image_index of stripes_order (a numpy
IndexError when the cursor is past the last row), builds the raster of shape
(width, height) whose entry (r, c) is 1 exactly when column c lies inside the
strip_width-wide band of a lit stripe, and advances the cursor by one. -/
def GenerateImage (p : Projector) : Except PyErr (List (List ℕ) × Projector) :=
  match p.stripes_order[p.image_index]? with
  | none => Except.error PyErr.indexError
  | some row =>
      Except.ok
        ((List.range p.width).map (fun _ =>
          (List.range p.height).map (fun c =>
            if colLit row p.strip_width c then (1 : ℕ) else 0)),
         { p with image_index := p.image_index + 1 })

/-- Success flag of an Except value. -/
def exceptOk {ε α : Type _} : Except ε α → Bool
  | Except.ok _ => true
  | Except.error _ => false

/-- n successive GenerateImage calls threading the projector state, stopping at
the first failure. -/
def renderN : ℕ → Projector → Except PyErr Projector
  | 0, p => Except.ok p
  | n + 1, p =>
    match GenerateImage p with
    | Except.error e => Except.error e
    | Except.ok (_, q) => renderN n q

/-- Wiring invariant maintained by the constructor and by every successful
render: the stripe-order matrix has exactly image_count rows. -/
def GoodP (p : Projector) : Prop := p.stripes_order.length = p.image_count

/-- Componentwise difference of 3-vectors, as numpy subtraction of arrays. -/
def sub3 (u v : ℝ × ℝ × ℝ) : ℝ × ℝ × ℝ := (u.1 - v.1, u.2.1 - v.2.1, u.2.2 - v.2.2)

/-- np.cross of two 3-vectors. -/
def cross3 (u v : ℝ × ℝ × ℝ) : ℝ × ℝ × ℝ :=
  (u.2.1 * v.2.2 - u.2.2 * v.2.1, u.2.2 * v.1 - u.1 * v.2.2, u.1 * v.2.1 - u.2.1 * v.1)

/-- np.dot of two 3-vectors. -/
def dot3 (u v : ℝ × ℝ × ℝ) : ℝ := u.1 * v.1 + u.2.1 * v.2.1 + u.2.2 * v.2.2

/-- Local variable width in Projector.GetPlaneEquation: last_stripe_width when
stripe_number == stripe_count - 1, strip_width otherwise. -/
def widthOfStripe (p : Projector) (stripe_number : ℤ) : ℕ :=
  if stripe_number = (p.stripe_count : ℤ) - 1 then p.last_stripe_width else p.strip_width

/-- middle_stripe_pixel in Projector.GetPlaneEquation:
(stripe_number - 1) * strip_width + width // 2. -/
def middleStripePixel (p : Projector) (stripe_number : ℤ) : ℤ :=
  (stripe_number - 1) * (p.strip_width : ℤ) + ((widthOfStripe p stripe_number / 2 : ℕ) : ℤ)

/-- delta_pixel before the metre conversion:
middle_stripe_pixel - central_image_pixel with central_image_pixel = width // 2. -/
def deltaPixel (p : Projector) (stripe_number : ℤ) : ℤ :=
  middleStripePixel p stripe_number - ((p.width / 2 : ℕ) : ℤ)

/-- Screen point (x, y, z) computed by Projector.GetPlaneEquation for a given
test distance D: delta_angel = angle - arctan(delta_pixel_in_metres / D), then
x = D * cos(angle - delta_angel), y = position[1], z = D * sin(angle - delta_angel). -/
noncomputable def screenPoint (p : Projector) (stripe_number : ℤ) (D : ℝ) : ℝ × ℝ × ℝ :=
  (D * Real.cos (p.angle -
      (p.angle - Real.arctan ((deltaPixel p stripe_number : ℝ) * p.pixel_in_meters / D))),
   p.position.2.1,
   D * Real.sin (p.angle -
      (p.angle - Real.arctan ((deltaPixel p stripe_number : ℝ) * p.pixel_in_meters / D))))

/-- point3 in Projector.GetPlaneEquation: the screen point shifted by one unit
along y. -/
def point3Of (q : ℝ × ℝ × ℝ) : ℝ × ℝ × ℝ := (q.1, q.2.1 + 1, q.2.2)

/-- cp in Projector.GetPlaneEquation: np.cross(point3 - point1, point2 - point1)
with point1 the projector position and point2 the screen point. -/
noncomputable def planeNormal (p : Projector) (stripe_number : ℤ) (D : ℝ) : ℝ × ℝ × ℝ :=
  cross3 (sub3 (point3Of (screenPoint p stripe_number D)) p.position)
    (sub3 (screenPoint p stripe_number D) p.position)

/-- Return value np.array([a, b, c, d]) of Projector.GetPlaneEquation:
(a, b, c) = cp and d = np.dot(cp, point3). -/
noncomputable def planeABCD (p : Projector) (stripe_number : ℤ) (D : ℝ) : ℝ × ℝ × ℝ × ℝ :=
  ((planeNormal p stripe_number D).1, (planeNormal p stripe_number D).2.1,
   (planeNormal p stripe_number D).2.2,
   dot3 (planeNormal p stripe_number D) (point3Of (screenPoint p stripe_number D)))

/-- Projector.GetPlaneEquation: with test_distance = None the arithmetic on None
raises a TypeError; otherwise the plane coefficients are returned.  The source
contains no stripe_number range check and no dedicated calibration check. -/
noncomputable def GetPlaneEquation (p : Projector) (stripe_number : ℤ) :
    Except PyErr (ℝ × ℝ × ℝ × ℝ) :=
  match p.test_distance with
  | none => Except.error PyErr.typeError
  | some D => Except.ok (planeABCD p stripe_number D)

/-- Membership of a point on the plane a x + b y + c z = d described by a
coefficient quadruple. -/
def onPlane (e : ℝ × ℝ × ℝ × ℝ) (q : ℝ × ℝ × ℝ) : Prop :=
  e.1 * q.1 + e.2.1 * q.2.1 + e.2.2.1 * q.2.2 = e.2.2.2

/-- The projector built by src/main.py: position (10, 0, 10), angle 70,
resolution (16, 16), accuracy 0.6 = 3/5. -/
noncomputable def p16 : Projector := Projector.init (10, 0, 10) 70 (16, 16) (3 / 5)

/-- The projector of src/main.py after SetTestProjection(0.001, 0.2). -/
noncomputable def p16c : Projector := SetTestProjection p16 0.001 0.2

/-- A projector whose width 17 is not divisible by its stripe count 4:
resolution (17, 17), accuracy 1/2, giving image_count 2, strip_width 4 and
last_stripe_width 5. -/
noncomputable def p17 : Projector := Projector.init (10, 0, 10) 70 (17, 17) (1 / 2)

/-! Helper lemmas about the binary-digit machinery. -/

theorem getD_map_range {α : Type} (f : ℕ → α) (d : α) {r n : ℕ} (h : r < n) :
    ((List.range n).map f).getD r d = f r := by
  simp [List.getD_eq_getElem?_getD, List.getElem?_map, List.getElem?_range h]

theorem natBitsAux_zero (f : ℕ) : natBitsAux f 0 = [] := by
  cases f <;> simp [natBitsAux]

theorem natBitsAux_eq (n : ℕ) :
    ∀ f g, n ≤ f → n ≤ g → natBitsAux f n = natBitsAux g n := by
  induction n using Nat.strong_induction_on with
  | _ n ih =>
    intro f g hf hg
    rcases n with _ | m
    · simp [natBitsAux_zero]
    · rcases f with _ | f
      · omega
      rcases g with _ | g
      · omega
      simp only [natBitsAux]
      rw [if_neg (Nat.succ_ne_zero m), if_neg (Nat.succ_ne_zero m)]
      have hdiv : (m + 1) / 2 < m + 1 := Nat.div_lt_self (Nat.succ_pos m) one_lt_two
      have h1 : natBitsAux f ((m + 1) / 2) = natBitsAux g ((m + 1) / 2) :=
        ih ((m + 1) / 2) hdiv f g (by omega) (by omega)
      rw [h1]

theorem natBits_step {n : ℕ} (h : n ≠ 0) : natBits n = natBits (n / 2) ++ [n % 2] := by
  rcases n with _ | m
  · exact absurd rfl h
  show natBitsAux (m + 1) (m + 1) = _
  simp only [natBitsAux]
  rw [if_neg (Nat.succ_ne_zero m)]
  have h1 : natBitsAux m ((m + 1) / 2) = natBitsAux ((m + 1) / 2) ((m + 1) / 2) :=
    natBitsAux_eq ((m + 1) / 2) m ((m + 1) / 2) (by omega) (by omega)
  rw [h1]
  rfl

theorem bitsLen_succ_low (w n : ℕ) : bitsLen (w + 1) n = bitsLen w (n / 2) ++ [n % 2] := by
  unfold bitsLen
  rw [List.range_succ, List.map_append]
  congr 1
  · apply List.map_congr_left
    intro r hr
    rw [List.mem_range] at hr
    have h1 : w + 1 - 1 - r = (w - 1 - r) + 1 := by omega
    rw [h1, pow_succ, show 2 ^ (w - 1 - r) * 2 = 2 * 2 ^ (w - 1 - r) from Nat.mul_comm _ _,
      ← Nat.div_div_eq_div_mul]
  · simp

theorem bitsLen_succ_high (w n : ℕ) : bitsLen (w + 1) n = n / 2 ^ w % 2 :: bitsLen w n := by
  unfold bitsLen
  rw [List.range_succ_eq_map, List.map_cons, List.map_map]
  congr 1
  apply List.map_congr_left
  intro r hr
  simp only [Function.comp_apply, Nat.succ_eq_add_one]
  rw [show w + 1 - 1 - (r + 1) = w - 1 - r from by omega]

theorem bitsLen_of_zero (w : ℕ) : bitsLen w 0 = List.replicate w 0 := by
  induction w with
  | zero => rfl
  | succ w ih =>
    rw [bitsLen_succ_low, Nat.zero_div, ih, Nat.zero_mod, ← List.replicate_succ']

theorem padZero_natBits (w : ℕ) :
    ∀ n, n < 2 ^ w → List.replicate (w - (natBits n).length) 0 ++ natBits n = bitsLen w n := by
  induction w with
  | zero =>
    intro n hn
    have h0 : n = 0 := by omega
    subst h0
    rfl
  | succ w ih =>
    intro n hn
    rcases Nat.eq_zero_or_pos n with h0 | hpos
    · subst h0
      show List.replicate (w + 1 - 0) 0 ++ [] = _
      rw [Nat.sub_zero, List.append_nil, bitsLen_of_zero]
    · have hne : n ≠ 0 := by omega
      rw [natBits_step hne]
      have hlen : (natBits (n / 2) ++ [n % 2]).length = (natBits (n / 2)).length + 1 := by
        simp
      rw [hlen, Nat.succ_sub_succ, bitsLen_succ_low, ← List.append_assoc]
      have hlt : n / 2 < 2 ^ w := by
        rw [pow_succ] at hn
        omega
      rw [ih (n / 2) hlt]

theorem pyFormatBin_eq {n w : ℕ} (hw : 1 ≤ w) (hn : n < 2 ^ w) :
    pyFormatBin n w = bitsLen w n := by
  unfold pyFormatBin padZero
  by_cases h0 : n = 0
  · subst h0
    have hb : binStr 0 = [0] := rfl
    rw [hb, bitsLen_of_zero]
    show List.replicate (w - 1) 0 ++ [0] = List.replicate w 0
    obtain ⟨v, rfl⟩ : ∃ v, w = v + 1 := ⟨w - 1, by omega⟩
    rw [Nat.succ_sub_one]
    exact (List.replicate_succ' v 0).symm
  · simp only [binStr, if_neg h0]
    exact padZero_natBits w n hn

theorem binsEntry_eq {k j : ℕ} (hj : j < 2 ^ k) : binsEntry k j = bitsLen k j := by
  unfold binsEntry
  have hj2 : j < 2 ^ (k + 2) :=
    lt_of_lt_of_le hj (Nat.pow_le_pow_right (by omega) (by omega))
  rw [pyFormatBin_eq (by omega) hj2, bitsLen_succ_high, bitsLen_succ_high]
  rfl

theorem bitsLen_getD {w n r : ℕ} (h : r < w) :
    (bitsLen w n).getD r 0 = n / 2 ^ (w - 1 - r) % 2 := by
  unfold bitsLen
  exact getD_map_range _ _ h

theorem StripeArray_length (k : ℕ) : (StripeArray k).length = k := by
  simp [StripeArray]

/-- Claim C3: for every image_count k, the stripe-order matrix built by
StripeArray has exactly k rows and 2 ^ k columns, and column j read
top-to-bottom is the binary representation of j zero-padded to k bits with the
top row holding the most significant bit: the entry in row r and column j is
the coefficient of 2 ^ (k - 1 - r) in j. -/
theorem StripeArray_binary_columns (k : ℕ) :
    (StripeArray k).length = k ∧
    (∀ r, r < k → ((StripeArray k).getD r []).length = 2 ^ k) ∧
    (∀ r j, r < k → j < 2 ^ k →
      ((StripeArray k).getD r []).getD j 0 = j / 2 ^ (k - 1 - r) % 2) := by
  refine ⟨StripeArray_length k, ?_, ?_⟩
  · intro r hr
    unfold StripeArray
    rw [getD_map_range _ _ hr]
    simp
  · intro r j hr hj
    unfold StripeArray
    rw [getD_map_range _ _ hr, getD_map_range _ _ hj, binsEntry_eq hj, bitsLen_getD hr]

/-- Witness for claim C3 at image_count 2, row 0, column 2: the top row of the
(2, 4) matrix holds the most significant bit of the column index. -/
theorem StripeArray_binary_columns_witness :
    ((StripeArray 2).getD 0 []).getD 2 0 = 2 / 2 ^ (2 - 1 - 0) % 2 :=
  (StripeArray_binary_columns 2).2.2 0 2 (by decide) (by decide)

/-! Helper lemmas about GenerateImage and the render cursor. -/

theorem GenerateImage_error (p : Projector) (h : p.stripes_order.length ≤ p.image_index) :
    GenerateImage p = Except.error PyErr.indexError := by
  unfold GenerateImage
  rw [List.getElem?_eq_none h]

theorem GenerateImage_ok (p : Projector) (h : p.image_index < p.stripes_order.length) :
    ∃ img, GenerateImage p = Except.ok (img, { p with image_index := p.image_index + 1 }) := by
  unfold GenerateImage
  rw [List.getElem?_eq_getElem h]
  exact ⟨_, rfl⟩

theorem GenerateImage_ok_inv (p : Projector) (img : List (List ℕ)) (q : Projector)
    (h : GenerateImage p = Except.ok (img, q)) :
    q.image_index = p.image_index + 1 ∧ q.image_count = p.image_count ∧
    q.stripes_order = p.stripes_order := by
  unfold GenerateImage at h
  rcases hx : p.stripes_order[p.image_index]? with _ | row
  · rw [hx] at h
    cases h
  · rw [hx] at h
    injection h with h1
    injection h1 with h2 h3
    subst h3
    exact ⟨rfl, rfl, rfl⟩

theorem GenerateImage_ok_iff (p : Projector) (hg : GoodP p) :
    exceptOk (GenerateImage p) = true ↔ p.image_index < p.image_count := by
  unfold GoodP at hg
  rcases Nat.lt_or_ge p.image_index p.image_count with hlt | hge
  · obtain ⟨img, heq⟩ := GenerateImage_ok p (by omega)
    rw [heq]
    simp [exceptOk, hlt]
  · rw [GenerateImage_error p (by omega)]
    simp [exceptOk]
    omega

theorem renderN_ok_iff (n : ℕ) : ∀ p : Projector, GoodP p →
    (exceptOk (renderN n p) = true ↔ (n = 0 ∨ p.image_index + n ≤ p.image_count)) := by
  induction n with
  | zero =>
    intro p _
    simp [renderN, exceptOk]
  | succ n ih =>
    intro p hg
    have hg' : p.stripes_order.length = p.image_count := hg
    rcases Nat.lt_or_ge p.image_index p.image_count with hlt | hge
    · obtain ⟨img, heq⟩ := GenerateImage_ok p (by omega)
      simp only [renderN]
      rw [heq]
      have hgood : GoodP { p with image_index := p.image_index + 1 } := hg
      rw [ih _ hgood]
      show (n = 0 ∨ p.image_index + 1 + n ≤ p.image_count) ↔
        (n + 1 = 0 ∨ p.image_index + (n + 1) ≤ p.image_count)
      omega
    · simp only [renderN]
      rw [GenerateImage_error p (by omega)]
      simp [exceptOk]
      omega

/-- Claim C6: a render call fails exactly when the cursor image_index has
reached image_count at the time of the call; a successful render advances the
cursor by one and preserves the wiring invariant, and starting from a freshly
constructed projector (cursor 0) a sequence of n render calls succeeds exactly
when n ≤ image_count, so the call after image_count successful renders fails
instead of wrapping or repeating. -/
theorem GenerateImage_fails_iff_exhausted :
    (∀ position angle res accuracy,
      GoodP (Projector.init position angle res accuracy) ∧
      (Projector.init position angle res accuracy).image_index = 0) ∧
    (∀ p : Projector, GoodP p →
      ((exceptOk (GenerateImage p) = true) ↔ p.image_index < p.image_count) ∧
      (∀ img q, GenerateImage p = Except.ok (img, q) →
        GoodP q ∧ q.image_index = p.image_index + 1) ∧
      (∀ n, exceptOk (renderN n p) = true ↔ (n = 0 ∨ p.image_index + n ≤ p.image_count))) := by
  constructor
  · intro position angle res accuracy
    exact ⟨StripeArray_length _, rfl⟩
  · intro p hg
    refine ⟨GenerateImage_ok_iff p hg, ?_, fun n => renderN_ok_iff n p hg⟩
    intro img q hq
    obtain ⟨h1, h2, h3⟩ := GenerateImage_ok_inv p img q hq
    refine ⟨?_, h1⟩
    unfold GoodP at hg ⊢
    rw [h2, h3, hg]

/-- Witness for claim C6 at the projector of src/main.py: its wiring invariant
holds, a first render succeeds since the cursor 0 is below image_count = 2, and
a third render call fails. -/
theorem GenerateImage_fails_iff_exhausted_witness :
    GoodP p16 ∧ (exceptOk (GenerateImage p16) = true ↔ p16.image_index < p16.image_count) ∧
    (exceptOk (renderN 3 p16) = true ↔ (3 = 0 ∨ p16.image_index + 3 ≤ p16.image_count)) :=
  have hg : GoodP p16 := by
    show p16.stripes_order.length = p16.image_count
    with_unfolding_all decide
  ⟨hg, (GenerateImage_fails_iff_exhausted.2 p16 hg).1,
    (GenerateImage_fails_iff_exhausted.2 p16 hg).2.2 3⟩

/-! Helper lemmas about the integer base-2 logarithm. -/

theorem log2Aux_zero (f : ℕ) : log2Aux f 0 = 0 := by
  cases f <;> simp [log2Aux]

theorem log2Aux_eq (n : ℕ) : ∀ f g, n ≤ f → n ≤ g → log2Aux f n = log2Aux g n := by
  induction n using Nat.strong_induction_on with
  | _ n ih =>
    intro f g hf hg
    rcases n with _ | m
    · simp [log2Aux_zero]
    · rcases f with _ | f
      · omega
      rcases g with _ | g
      · omega
      simp only [log2Aux]
      by_cases h2 : 2 ≤ m + 1
      · rw [if_pos h2, if_pos h2]
        have hdiv : (m + 1) / 2 < m + 1 := Nat.div_lt_self (Nat.succ_pos m) one_lt_two
        rw [ih ((m + 1) / 2) hdiv f g (by omega) (by omega)]
      · rw [if_neg h2, if_neg h2]

theorem log2F_step {n : ℕ} (h : 2 ≤ n) : log2F n = log2F (n / 2) + 1 := by
  rcases n with _ | m
  · omega
  show log2Aux (m + 1) (m + 1) = _
  simp only [log2Aux]
  rw [if_pos h]
  rw [log2Aux_eq ((m + 1) / 2) m ((m + 1) / 2) (by omega) (by omega)]
  rfl

theorem log2F_one : log2F 1 = 0 := rfl

theorem log2F_bounds : ∀ n, 1 ≤ n → 2 ^ log2F n ≤ n ∧ n < 2 ^ (log2F n + 1) := by
  intro n
  induction n using Nat.strong_induction_on with
  | _ n ih =>
    intro h1
    by_cases h2 : 2 ≤ n
    · have hdiv1 : 1 ≤ n / 2 := by omega
      have hdivlt : n / 2 < n := Nat.div_lt_self (by omega) one_lt_two
      obtain ⟨hlo, hhi⟩ := ih (n / 2) hdivlt hdiv1
      rw [log2F_step h2]
      have e1 : 2 ^ (log2F (n / 2) + 1) = 2 ^ log2F (n / 2) * 2 := pow_succ 2 _
      have e2 : 2 ^ (log2F (n / 2) + 1 + 1) = 2 ^ log2F (n / 2) * 2 * 2 := by
        rw [pow_succ, pow_succ]
      rw [e1, e2]
      rw [e1] at hhi
      omega
    · have hn : n = 1 := by omega
      subst hn
      rw [log2F_one]
      omega

/-- Claim C7: FindImageCount computes floor(floor(log2 width) * accuracy) for
every width ≥ 1 (the inner floor over the real base-2 logarithm); in particular
for width 16 and accuracy 0.6 it returns 2, and the projector of src/main.py
gets image_count 2 and stripe_count 4. -/
theorem FindImageCount_floor_logb :
    (∀ (w : ℕ) (acc : ℚ), 1 ≤ w →
      FindImageCount w acc = ⌊(⌊Real.logb 2 (w : ℝ)⌋ : ℝ) * (acc : ℝ)⌋) ∧
    FindImageCount 16 (3 / 5) = 2 ∧ p16.image_count = 2 ∧ p16.stripe_count = 4 := by
  refine ⟨?_, by with_unfolding_all decide, by with_unfolding_all decide,
    by with_unfolding_all decide⟩
  intro w acc hw
  have hpos : (0 : ℝ) ≤ (w : ℝ) := by positivity
  have h1 : ⌊Real.logb 2 (w : ℝ)⌋ = ((Nat.log 2 w : ℕ) : ℤ) := by
    have h := @Real.floor_logb_natCast 2 ((w : ℕ) : ℝ) hpos
    norm_num at h
    exact h
  have h3 : Nat.log 2 w = log2F w := by
    obtain ⟨hlo, hhi⟩ := log2F_bounds w hw
    exact Nat.log_eq_of_pow_le_of_lt_pow hlo hhi
  unfold FindImageCount
  rw [h1, h3]
  rw [show (((log2F w : ℕ) : ℤ) : ℝ) * (acc : ℝ) = (((log2F w : ℚ) * acc : ℚ) : ℝ) from by
    push_cast
    ring]
  exact (Rat.floor_cast _).symm

/-- Witness for claim C7 at width 16 and accuracy 3/5. -/
theorem FindImageCount_floor_logb_witness :
    FindImageCount 16 (3 / 5) = ⌊(⌊Real.logb 2 ((16 : ℕ) : ℝ)⌋ : ℝ) * ((3 / 5 : ℚ) : ℝ)⌋ :=
  FindImageCount_floor_logb.1 16 (3 / 5) (by decide)

/-! Helper lemma and claim theorems about GetPlaneEquation. -/

theorem GetPlaneEquation_ok (p : Projector) (D : ℝ) (sn : ℤ) (h : p.test_distance = some D) :
    GetPlaneEquation p sn = Except.ok (planeABCD p sn D) := by
  unfold GetPlaneEquation
  rw [h]

/-- Claim C1: for every calibrated projector state and every stripe_number, the
coefficients (a, b, c, d) returned by GetPlaneEquation satisfy
a x + b y + c z = d exactly, over the reals, at all three points used to
construct the plane: the projector position, the computed screen point, and
the screen point shifted by one unit along y. -/
theorem GetPlaneEquation_points_on_plane (p : Projector) (sn : ℤ) (D : ℝ)
    (e : ℝ × ℝ × ℝ × ℝ) (hD : p.test_distance = some D)
    (he : GetPlaneEquation p sn = Except.ok e) :
    onPlane e p.position ∧ onPlane e (screenPoint p sn D) ∧
    onPlane e (point3Of (screenPoint p sn D)) := by
  rw [GetPlaneEquation_ok p D sn hD] at he
  injection he with he'
  subst he'
  refine ⟨?_, ?_, ?_⟩ <;>
    simp only [onPlane, planeABCD, planeNormal, cross3, dot3, sub3, point3Of] <;>
    ring

/-- Witness for claim C1 at the calibrated projector of src/main.py and
stripe_number 2. -/
theorem GetPlaneEquation_points_on_plane_witness :
    onPlane (planeABCD p16c 2 (0.001 : ℝ)) p16c.position ∧
    onPlane (planeABCD p16c 2 (0.001 : ℝ)) (screenPoint p16c 2 (0.001 : ℝ)) ∧
    onPlane (planeABCD p16c 2 (0.001 : ℝ)) (point3Of (screenPoint p16c 2 (0.001 : ℝ))) :=
  GetPlaneEquation_points_on_plane p16c 2 (0.001 : ℝ) (planeABCD p16c 2 (0.001 : ℝ)) rfl rfl

/-- Claim C10: for every calibrated projector state and every stripe_number,
the second coefficient b of the returned plane equation is exactly 0: the two
in-plane vectors differ only in their y component, so the cross product has a
vanishing y component and the plane is parallel to the vertical axis. -/
theorem planeEquation_b_zero (p : Projector) (sn : ℤ) (D : ℝ) (e : ℝ × ℝ × ℝ × ℝ)
    (hD : p.test_distance = some D) (he : GetPlaneEquation p sn = Except.ok e) :
    e.2.1 = 0 := by
  rw [GetPlaneEquation_ok p D sn hD] at he
  injection he with he'
  subst he'
  simp only [planeABCD, planeNormal, cross3, sub3, point3Of]
  ring

/-- Witness for claim C10 at the calibrated projector of src/main.py and
stripe_number 2. -/
theorem planeEquation_b_zero_witness : (planeABCD p16c 2 (0.001 : ℝ)).2.1 = 0 :=
  planeEquation_b_zero p16c 2 (0.001 : ℝ) (planeABCD p16c 2 (0.001 : ℝ)) rfl rfl

/-- Counterexample for claim C5: stripe_number 7 lies outside
[0, stripe_count) = [0, 4), yet the call on the calibrated projector of
src/main.py succeeds instead of failing with an index error. -/
theorem GetPlaneEquation_no_range_check :
    exceptOk (GetPlaneEquation p16c 7) = true ∧ (p16c.stripe_count : ℤ) ≤ 7 :=
  ⟨rfl, by with_unfolding_all decide⟩

/-- Claim C5 (amended): GetPlaneEquation validates nothing itself; it fails
exactly when calibration is absent, in which case the failure is the TypeError
raised by arithmetic on None rather than a dedicated calibration error, and an
out-of-range stripe_number is accepted and produces a plane equation. -/
theorem GetPlaneEquation_validation (p : Projector) (sn : ℤ) :
    exceptOk (GetPlaneEquation p sn) = p.test_distance.isSome ∧
    (p.test_distance = none → GetPlaneEquation p sn = Except.error PyErr.typeError) := by
  rcases h : p.test_distance with _ | D
  · exact ⟨by simp [GetPlaneEquation, h, exceptOk], fun _ => by
      unfold GetPlaneEquation
      rw [h]⟩
  · exact ⟨by simp [GetPlaneEquation, h, exceptOk], fun hn => Option.noConfusion hn⟩

/-- Witness for claim C5 (amended): the uncalibrated projector of src/main.py
fails with the TypeError. -/
theorem GetPlaneEquation_validation_witness :
    GetPlaneEquation p16 0 = Except.error PyErr.typeError :=
  (GetPlaneEquation_validation p16 0).2 rfl

/-- Counterexample for claim C8: with both arguments negative the call does
not fail; it records the negative test distance and derives the negative
pixel size exactly as it would for valid arguments. -/
theorem SetTestProjection_accepts_nonpositive :
    (SetTestProjection p16 (-1) (-1)).test_distance = some (-1) ∧
    (SetTestProjection p16 (-1) (-1)).pixel_in_meters = (-1) / (p16.width : ℝ) :=
  ⟨rfl, rfl⟩

/-- Claim C8 (amended): SetTestProjection performs no validation: for every
pair of arguments, positive or not, it records the test distance and overrides
the default pixel size with measured_screen_width / width, leaving the rest of
the state unchanged. -/
theorem SetTestProjection_always_records (p : Projector) (d w : ℝ) :
    (SetTestProjection p d w).test_distance = some d ∧
    (SetTestProjection p d w).pixel_in_meters = w / (p.width : ℝ) ∧
    (SetTestProjection p d w).width = p.width ∧
    (SetTestProjection p d w).image_index = p.image_index ∧
    (SetTestProjection p d w).stripes_order = p.stripes_order :=
  ⟨rfl, rfl, rfl, rfl, rfl⟩

/-- Claim C4 evaluation at the failing input: for the projector of src/main.py
(strip_width 4, width 16) and stripe_number 2, the code computes midpoint pixel
(2 - 1) * 4 + 4 / 2 = 6 and offset -2, while the claimed formula
stripe_number * strip_width + width_of / 2 gives 10 (offset 2). -/
theorem middleStripePixel_off_by_one :
    middleStripePixel p16 2 = 6 ∧
    2 * (p16.strip_width : ℤ) + ((widthOfStripe p16 2 / 2 : ℕ) : ℤ) = 10 ∧
    deltaPixel p16 2 = -2 := by
  with_unfolding_all decide

/-- Claim C2 evaluation at the failing input: width 17, stripe_count 4, cursor
0 (matrix row (0, 0, 1, 1), so the last stripe 3 is lit).  Column 16 lies in
the last stripe's claimed band (3 * strip_width ≤ 16 < 3 * strip_width
+ last_stripe_width, and 16 < height), yet the rendered raster holds 0 there,
while column 12 of the same stripe holds 1: GenerateImage uses strip_width for
every stripe, never last_stripe_width. -/
theorem GenerateImage_last_stripe_dark :
    (GenerateImage p17).toOption.map
        (fun x => ((x.1.getD 0 []).getD 16 9, (x.1.getD 0 []).getD 12 9)) = some (0, 1) ∧
    (p17.stripes_order.getD 0 []).getD 3 0 = 1 ∧
    p17.strip_width * 3 ≤ 16 ∧ 16 < p17.strip_width * 3 + p17.last_stripe_width ∧
    16 < p17.height := by
  with_unfolding_all decide

/-- Claim C9 evaluation at the failing input: width 17, stripe_count 4.
Column 16 lies inside stripe 3 (the last stripe absorbs the remainder, so its
extent is [12, 17)), but reading column 16 across all image_count = 2 rendered
rasters (first render = most significant bit) decodes to 0, not 3, because the
remainder column is never illuminated. -/
theorem decode_column16_fails :
    ((GenerateImage p17).toOption.bind (fun x =>
        (GenerateImage x.2).toOption.map (fun y =>
          2 * (x.1.getD 0 []).getD 16 9 + (y.1.getD 0 []).getD 16 9))) = some 0 ∧
    p17.stripe_count = 4 ∧
    p17.strip_width * 3 ≤ 16 ∧ 16 < p17.strip_width * 3 + p17.last_stripe_width := by
  with_unfolding_all decide
